import Mathlib

/-!
Verification of the collaborative-canvas repository (a Figma-style clone).

The development shallowly embeds the TypeScript source:
pure functions become Lean functions over exact rationals (the algebraic
content of the JS float computations), stateful services become explicit
state passing over stores modelled as functions from ids to values, and
fallible operations return structured results carrying the performed
effects and the surfaced error.
-/

namespace CollabCanvas

/-! ## Viewport geometry (src/collab-canvas/src/utils/canvas.utils.ts and Canvas.tsx) -/

/-- Viewport state: pan offset (x, y) and zoom scale, as in canvas.types.ts. -/
structure ViewportState where
  x : ℚ
  y : ℚ
  scale : ℚ
deriving DecidableEq

/-- canvasToScreen from canvas.utils.ts:
screenX = canvasX * scale + stageX, screenY = canvasY * scale + stageY. -/
def canvasToScreen (canvasX canvasY : ℚ) (viewport : ViewportState) : ℚ × ℚ :=
  (canvasX * viewport.scale + viewport.x,
   canvasY * viewport.scale + viewport.y)

/-- screenToCanvas from canvas.utils.ts:
canvasX = (screenX - stageX) / scale, canvasY = (screenY - stageY) / scale. -/
def screenToCanvas (screenX screenY : ℚ) (viewport : ViewportState) : ℚ × ℚ :=
  ((screenX - viewport.x) / viewport.scale,
   (screenY - viewport.y) / viewport.scale)

/-- MIN_SCALE constant from Canvas.tsx. -/
def MIN_SCALE : ℚ := 1/10

/-- MAX_SCALE constant from Canvas.tsx. -/
def MAX_SCALE : ℚ := 3

/-- The new scale computed by handleWheel in Canvas.tsx (scaleBy = 1.1):
newScale = max(MIN_SCALE, oldScale / 1.1) when e.evt.deltaY > 0 (zoom out),
newScale = min(MAX_SCALE, oldScale * 1.1) otherwise (zoom in). -/
def wheelNewScale (oldScale : ℚ) (deltaYPos : Bool) : ℚ :=
  if deltaYPos then max MIN_SCALE (oldScale / (11/10))
  else min MAX_SCALE (oldScale * (11/10))

/-- One step of the wheel-zoom handler (handleWheel in Canvas.tsx).
deltaYPos records whether e.evt.deltaY > 0.  The handler computes
mousePointTo = (pointer - offset) / oldScale and
newPos = pointer - mousePointTo * newScale. -/
def handleWheel (viewport : ViewportState) (pointerX pointerY : ℚ)
    (deltaYPos : Bool) : ViewportState :=
  { x := pointerX - (pointerX - viewport.x) / viewport.scale
          * wheelNewScale viewport.scale deltaYPos,
    y := pointerY - (pointerY - viewport.y) / viewport.scale
          * wheelNewScale viewport.scale deltaYPos,
    scale := wheelNewScale viewport.scale deltaYPos }

/-- getAdaptiveGridSize from canvas.utils.ts.  Returns the minor grid spacing
(none when the minor grid is hidden) and the major grid spacing.  Note the
final branch: below scale 0.1 the code still returns a major spacing of 2000. -/
def getAdaptiveGridSize (scale : ℚ) : Option ℚ × ℚ :=
  if scale ≥ 1/2 then (some 50, 500)
  else if scale ≥ 1/5 then (none, 500)
  else if scale ≥ 1/10 then (none, 1000)
  else (none, 2000)

/-! ## Theorems for claims C3, C4, C8 -/

/-- C3: for every point (x, y) and every viewport with nonzero scale,
screenToCanvas and canvasToScreen are exact inverses of each other: the
round trip in either direction returns the original point (exactly, in the
idealised rational arithmetic, hence within floating-point tolerance). -/
theorem coordinate_round_trip (x y sx sy : ℚ) (viewport : ViewportState)
    (hscale : viewport.scale ≠ 0) :
    (let s := canvasToScreen x y viewport
     screenToCanvas s.1 s.2 viewport = (x, y)) ∧
    (let c := screenToCanvas sx sy viewport
     canvasToScreen c.1 c.2 viewport = (sx, sy)) := by
  constructor
  · simp only [canvasToScreen, screenToCanvas]
    rw [Prod.mk.injEq]
    constructor <;> field_simp
  · simp only [canvasToScreen, screenToCanvas]
    rw [Prod.mk.injEq]
    constructor <;> field_simp

/-- Witness for C3 at a concrete point and viewport. -/
theorem coordinate_round_trip_witness :
    (let s := canvasToScreen 200 100 { x := 100, y := 50, scale := 3/2 }
     screenToCanvas s.1 s.2 { x := 100, y := 50, scale := 3/2 } = (200, 100)) ∧
    (let c := screenToCanvas 400 200 { x := 100, y := 50, scale := 3/2 }
     canvasToScreen c.1 c.2 { x := 100, y := 50, scale := 3/2 } = (400, 200)) :=
  coordinate_round_trip 200 100 400 200 { x := 100, y := 50, scale := 3/2 }
    (by norm_num)

/-- The new scale produced by one wheel step is nonzero whenever the old
scale is nonzero. -/
theorem wheelNewScale_ne_zero (s : ℚ) (deltaYPos : Bool) (hs : s ≠ 0) :
    wheelNewScale s deltaYPos ≠ 0 := by
  cases deltaYPos with
  | true =>
    have h1 : (0 : ℚ) < MIN_SCALE := by norm_num [MIN_SCALE]
    have h2 : MIN_SCALE ≤ max MIN_SCALE (s / (11/10)) := le_max_left _ _
    simpa [wheelNewScale] using ne_of_gt (lt_of_lt_of_le h1 h2)
  | false =>
    simp only [wheelNewScale, Bool.false_eq_true, if_neg, not_false_eq_true]
    intro hmin
    rcases min_eq_iff.mp hmin with h | h
    · exact absurd h.1.symm (by norm_num [MAX_SCALE])
    · exact mul_ne_zero hs (by norm_num) h.1

/-- When the old scale lies in [MIN_SCALE, MAX_SCALE], so does the new one. -/
theorem wheelNewScale_mem_range (s : ℚ) (deltaYPos : Bool)
    (hlo : MIN_SCALE ≤ s) (hhi : s ≤ MAX_SCALE) :
    MIN_SCALE ≤ wheelNewScale s deltaYPos ∧
    wheelNewScale s deltaYPos ≤ MAX_SCALE := by
  have hpos : (0 : ℚ) < s :=
    lt_of_lt_of_le (by norm_num [MIN_SCALE]) hlo
  cases deltaYPos with
  | true =>
    simp only [wheelNewScale, if_pos]
    refine ⟨le_max_left _ _, ?_⟩
    rw [max_le_iff]
    refine ⟨by norm_num [MIN_SCALE, MAX_SCALE], ?_⟩
    calc s / (11/10) ≤ s := by
          rw [div_le_iff₀ (by norm_num)]
          nlinarith
      _ ≤ MAX_SCALE := hhi
  | false =>
    simp only [wheelNewScale, Bool.false_eq_true, if_neg, not_false_eq_true]
    refine ⟨?_, min_le_left _ _⟩
    rw [le_min_iff]
    refine ⟨by norm_num [MIN_SCALE, MAX_SCALE], ?_⟩
    calc MIN_SCALE ≤ s := hlo
      _ ≤ s * (11/10) := by nlinarith

/-- C4: for every viewport with nonzero scale and every pointer position,
one wheel-zoom step keeps the canvas point under the pointer fixed:
screenToCanvas(p, after) = screenToCanvas(p, before); and when the old scale
lies in [MIN_SCALE, MAX_SCALE] = [0.1, 3] the new scale stays in that range. -/
theorem handleWheel_zoom_to_pointer (viewport : ViewportState)
    (pointerX pointerY : ℚ) (deltaYPos : Bool)
    (hscale : viewport.scale ≠ 0) :
    (screenToCanvas pointerX pointerY
        (handleWheel viewport pointerX pointerY deltaYPos)
      = screenToCanvas pointerX pointerY viewport) ∧
    (MIN_SCALE ≤ viewport.scale → viewport.scale ≤ MAX_SCALE →
      MIN_SCALE ≤ (handleWheel viewport pointerX pointerY deltaYPos).scale ∧
      (handleWheel viewport pointerX pointerY deltaYPos).scale ≤ MAX_SCALE) := by
  have hnew := wheelNewScale_ne_zero viewport.scale deltaYPos hscale
  constructor
  · simp only [handleWheel, screenToCanvas]
    rw [Prod.mk.injEq]
    constructor <;> · field_simp; ring
  · intro hlo hhi
    exact wheelNewScale_mem_range viewport.scale deltaYPos hlo hhi

/-- Witness for C4 at a concrete viewport and pointer. -/
theorem handleWheel_zoom_to_pointer_witness :
    (screenToCanvas 300 200
        (handleWheel { x := 10, y := 20, scale := 1 } 300 200 false)
      = screenToCanvas 300 200 { x := 10, y := 20, scale := 1 }) ∧
    (MIN_SCALE ≤ (1 : ℚ) → (1 : ℚ) ≤ MAX_SCALE →
      MIN_SCALE ≤ (handleWheel { x := 10, y := 20, scale := 1 } 300 200 false).scale ∧
      (handleWheel { x := 10, y := 20, scale := 1 } 300 200 false).scale ≤ MAX_SCALE) :=
  handleWheel_zoom_to_pointer { x := 10, y := 20, scale := 1 } 300 200 false
    (by norm_num)

/-- C8 (code bug): below the minimum zoom threshold the code does NOT hide
the grid: getAdaptiveGridSize(0.05) returns a major grid spacing of 2000
(with the minor grid hidden), and the CanvasGrid component renders major
lines unconditionally.  The doc comment of getAdaptiveGridSize itself says
that below scale 0.1 no grid is shown.  Above the threshold the spacing is
the documented step function of scale (coarser at low zoom, finer at high
zoom). -/
theorem getAdaptiveGridSize_below_threshold_still_draws_grid :
    getAdaptiveGridSize (1/20) = (none, 2000) ∧
    (getAdaptiveGridSize (1/20)).2 ≠ 0 ∧
    getAdaptiveGridSize (3/20) = (none, 1000) ∧
    getAdaptiveGridSize (3/10) = (none, 500) ∧
    getAdaptiveGridSize 1 = (some 50, 500) := by
  refine ⟨?_, ?_, ?_, ?_, ?_⟩ <;> norm_num [getAdaptiveGridSize]

/-! ## Object service (src/.../object.service.ts): validation, locks, drag writes -/

/-- A JavaScript number: NaN, an infinity, or a finite value (modelled
exactly as a rational). -/
inductive JSNum where
  | nan : JSNum
  | posInf : JSNum
  | negInf : JSNum
  | fin : ℚ → JSNum
deriving DecidableEq

/-- isValidPosition from object.service.ts:
typeof value is number, !isNaN(value) and isFinite(value). -/
def isValidPosition : JSNum → Bool
  | .fin _ => true
  | _ => false

/-- A canvas object record, as in object.types.ts (RectangleObject).
The lockedBy field is none when the lock is absent or null in the store. -/
structure RectangleObject where
  id : String
  type : String
  x : JSNum
  y : JSNum
  width : JSNum
  height : JSNum
  color : String
  lockedBy : Option String
deriving DecidableEq

/-- A partial update of a RectangleObject: each field is present (some) or
absent (none), mirroring a TypeScript Partial where a key may be missing. -/
structure ObjectUpdates where
  id : Option String := none
  type : Option String := none
  x : Option JSNum := none
  y : Option JSNum := none
  width : Option JSNum := none
  height : Option JSNum := none
  color : Option String := none
  lockedBy : Option (Option String) := none
deriving DecidableEq

/-- One conjunct of validateObjectUpdate: the field key is present in the
updates and its value fails isValidPosition. -/
def invalidField (f : Option JSNum) : Bool :=
  match f with
  | some v => !(isValidPosition v)
  | none => false

/-- validateObjectUpdate from object.service.ts: checks x, y, width, height
in order and throws on the first invalid one.  Throwing is modelled as
returning an error value. -/
def validateObjectUpdate (updates : ObjectUpdates) : Except String Unit :=
  if invalidField updates.x then .error "Invalid x position"
  else if invalidField updates.y then .error "Invalid y position"
  else if invalidField updates.width then .error "Invalid width"
  else if invalidField updates.height then .error "Invalid height"
  else .ok ()

/-- The objects subtree of the realtime store: object id to record. -/
def ObjectsStore := String → Option RectangleObject

/-- Viewing a full RectangleObject as updates with every field present, as
createObject does when it passes the whole object to validateObjectUpdate. -/
def objectToUpdates (o : RectangleObject) : ObjectUpdates :=
  { id := some o.id, type := some o.type, x := some o.x, y := some o.y,
    width := some o.width, height := some o.height, color := some o.color,
    lockedBy := some o.lockedBy }

/-- createObject from object.service.ts: validates, then writes the full
record at objects/{id}.  On a validation error nothing is written and the
error propagates to the caller. -/
def createObject (st : ObjectsStore) (object : RectangleObject) :
    Except String ObjectsStore :=
  match validateObjectUpdate (objectToUpdates object) with
  | .error e => .error e
  | .ok _ => .ok (fun k => if k = object.id then some object else st k)

/-- Merging partial updates into an existing record (the semantics of a
realtime-database update call on the object path, for an existing object). -/
def applyUpdates (o : RectangleObject) (u : ObjectUpdates) : RectangleObject :=
  { id := u.id.getD o.id, type := u.type.getD o.type, x := u.x.getD o.x,
    y := u.y.getD o.y, width := u.width.getD o.width,
    height := u.height.getD o.height, color := u.color.getD o.color,
    lockedBy := u.lockedBy.getD o.lockedBy }

/-- updateObject from object.service.ts: validates, then merges the given
fields into the record at objects/{objectId}. -/
def updateObject (st : ObjectsStore) (objectId : String)
    (updates : ObjectUpdates) : Except String ObjectsStore :=
  match validateObjectUpdate updates with
  | .error e => .error e
  | .ok _ => .ok (fun k =>
      if k = objectId then (st k).map (fun o => applyUpdates o updates)
      else st k)

/-- updateObjectPositionDuringDrag from object.service.ts: an unvalidated
update of exactly the keys x and y at objects/{objectId}. -/
def updateObjectPositionDuringDrag (st : ObjectsStore) (objectId : String)
    (x y : JSNum) : ObjectsStore :=
  fun k =>
    if k = objectId then (st k).map (fun o => { o with x := x, y := y })
    else st k

/-! ## Lock acquisition (acquireLock in object.service.ts) -/

/-- The objects/{id}/lockedBy subtree of the store: none models both an
absent node and a null value (the realtime database conflates the two). -/
def LockStore := String → Option String

/-- JavaScript falsiness of the lock value read by the transaction:
!currentLock holds for null/undefined and for the empty string. -/
def lockFalsy : Option String → Bool
  | none => true
  | some s => s == ""

/-- Result of the transaction update function: commit a new value, or abort
(the update function returned undefined). -/
inductive LockTxnResult where
  | commit : String → LockTxnResult
  | abort : LockTxnResult
deriving DecidableEq

/-- The transaction update function inside acquireLock: if there is no lock
or it is our lock, commit userId; otherwise abort. -/
def lockTransactionUpdate (userId : String) (currentLock : Option String) :
    LockTxnResult :=
  if lockFalsy currentLock || currentLock == some userId then .commit userId
  else .abort

/-- Outcome of one acquireLock call: the boolean handed to the caller, the
lock store afterwards, the error raised to the caller (none when every error
was caught), and how many transaction attempts were made. -/
structure AcquireLockResult where
  granted : Bool
  locks : LockStore
  raisedError : Option String
  transactionAttempts : Nat

/-- acquireLock from object.service.ts.  channelErr injects a failure of the
underlying runTransaction promise (some e: the store rejected with e).  The
try/catch swallows such an error: it is logged and false is returned; no
retry happens.  On a committed transaction the lock field is set to userId;
on an abort the store is untouched and false is returned. -/
def acquireLock (locks : LockStore) (objectId userId : String)
    (channelErr : Option String) : AcquireLockResult :=
  match channelErr with
  | some _ =>
    { granted := false, locks := locks, raisedError := none,
      transactionAttempts := 1 }
  | none =>
    match lockTransactionUpdate userId (locks objectId) with
    | .commit v =>
      { granted := true,
        locks := fun k => if k = objectId then some v else locks k,
        raisedError := none, transactionAttempts := 1 }
    | .abort =>
      { granted := false, locks := locks, raisedError := none,
        transactionAttempts := 1 }

/-! ## Theorems for claims C5, C10, C1, C7 -/

/-- If any of the four position fields present in the updates is invalid,
validateObjectUpdate returns an error. -/
theorem validateObjectUpdate_error_of_invalid (u : ObjectUpdates)
    (h : invalidField u.x = true ∨ invalidField u.y = true ∨
         invalidField u.width = true ∨ invalidField u.height = true) :
    ∃ msg, validateObjectUpdate u = .error msg := by
  by_cases h1 : invalidField u.x = true
  · exact ⟨"Invalid x position", by simp [validateObjectUpdate, h1]⟩
  · by_cases h2 : invalidField u.y = true
    · exact ⟨"Invalid y position", by simp [validateObjectUpdate, h1, h2]⟩
    · by_cases h3 : invalidField u.width = true
      · exact ⟨"Invalid width", by simp [validateObjectUpdate, h1, h2, h3]⟩
      · by_cases h4 : invalidField u.height = true
        · exact ⟨"Invalid height", by simp [validateObjectUpdate, h1, h2, h3, h4]⟩
        · rcases h with h | h | h | h <;> simp [h] at h1 h2 h3 h4

/-- C5: create and update validate every numeric field present among
x, y, width, height; a NaN or infinite value makes the call return a
validation error, so no write occurs (the Except result carries no store
and the caller keeps the unchanged one). -/
theorem create_update_reject_nonfinite (st : ObjectsStore)
    (object : RectangleObject) (objectId : String) (updates : ObjectUpdates)
    (hobj : isValidPosition object.x = false ∨ isValidPosition object.y = false ∨
            isValidPosition object.width = false ∨ isValidPosition object.height = false)
    (hupd : invalidField updates.x = true ∨ invalidField updates.y = true ∨
            invalidField updates.width = true ∨ invalidField updates.height = true) :
    (∃ msg, createObject st object = .error msg) ∧
    (∃ msg, updateObject st objectId updates = .error msg) := by
  constructor
  · have h : invalidField (objectToUpdates object).x = true ∨
        invalidField (objectToUpdates object).y = true ∨
        invalidField (objectToUpdates object).width = true ∨
        invalidField (objectToUpdates object).height = true := by
      rcases hobj with h | h | h | h
      · exact Or.inl (by simp [objectToUpdates, invalidField, h])
      · exact Or.inr (Or.inl (by simp [objectToUpdates, invalidField, h]))
      · exact Or.inr (Or.inr (Or.inl (by simp [objectToUpdates, invalidField, h])))
      · exact Or.inr (Or.inr (Or.inr (by simp [objectToUpdates, invalidField, h])))
    obtain ⟨msg, hmsg⟩ := validateObjectUpdate_error_of_invalid _ h
    exact ⟨msg, by simp [createObject, hmsg]⟩
  · obtain ⟨msg, hmsg⟩ := validateObjectUpdate_error_of_invalid _ hupd
    exact ⟨msg, by simp [updateObject, hmsg]⟩

/-- A concrete object with a NaN x field. -/
def nanXRect : RectangleObject :=
  { id := "rect_1", type := "rectangle", x := .nan, y := .fin 150,
    width := .fin 200, height := .fin 100, color := "#FF6B6B",
    lockedBy := none }

/-- Witness for C5: create with x = NaN and update with width = Infinity are
both rejected. -/
theorem create_update_reject_nonfinite_witness :
    (∃ msg, createObject (fun _ => none) nanXRect = .error msg) ∧
    (∃ msg, updateObject (fun _ => none) "rect_1" { width := some .posInf }
      = .error msg) :=
  create_update_reject_nonfinite (fun _ => none) nanXRect "rect_1"
    { width := some .posInf }
    (Or.inl rfl) (Or.inr (Or.inr (Or.inl rfl)))

/-- C10: the lightweight in-drag position write changes only the x and y
fields of the addressed object; id, type, width, height, color and lockedBy
are unchanged, and every other object in the store is untouched. -/
theorem updateObjectPositionDuringDrag_frame (st : ObjectsStore)
    (objectId : String) (x y : JSNum) (o : RectangleObject)
    (h : st objectId = some o) :
    (∀ k, k ≠ objectId →
      updateObjectPositionDuringDrag st objectId x y k = st k) ∧
    ∃ o2, updateObjectPositionDuringDrag st objectId x y objectId = some o2 ∧
      o2.x = x ∧ o2.y = y ∧ o2.id = o.id ∧ o2.type = o.type ∧
      o2.width = o.width ∧ o2.height = o.height ∧ o2.color = o.color ∧
      o2.lockedBy = o.lockedBy := by
  constructor
  · intro k hk
    simp [updateObjectPositionDuringDrag, hk]
  · refine ⟨{ o with x := x, y := y }, ?_, rfl, rfl, rfl, rfl, rfl, rfl, rfl, rfl⟩
    simp [updateObjectPositionDuringDrag, h]

/-- A concrete one-object store holding nanXRect under its id. -/
def sampleStore : ObjectsStore :=
  fun k => if k = "rect_1" then some nanXRect else none

/-- Witness for C10 on the concrete store. -/
theorem updateObjectPositionDuringDrag_frame_witness :
    (∀ k, k ≠ "rect_1" →
      updateObjectPositionDuringDrag sampleStore "rect_1" (.fin 150) (.fin 200) k
        = sampleStore k) ∧
    ∃ o2, updateObjectPositionDuringDrag sampleStore "rect_1" (.fin 150) (.fin 200)
        "rect_1" = some o2 ∧
      o2.x = .fin 150 ∧ o2.y = .fin 200 ∧ o2.id = nanXRect.id ∧
      o2.type = nanXRect.type ∧ o2.width = nanXRect.width ∧
      o2.height = nanXRect.height ∧ o2.color = nanXRect.color ∧
      o2.lockedBy = nanXRect.lockedBy :=
  updateObjectPositionDuringDrag_frame sampleStore "rect_1" (.fin 150) (.fin 200)
    nanXRect (by simp [sampleStore])

/-- C1: acquireLock is an atomic compare-and-set.  The call grants and sets
lockedBy to the caller exactly when the field was empty (null/absent or the
empty string) or already equal to the caller; otherwise the transaction
aborts, the store is unchanged and the call is not granted.  Consequently,
for distinct users u1 and u2, once u1 has been granted the lock (and so
holds it, its id being nonempty), an acquisition by u2 is not granted and
leaves the lock unchanged. -/
theorem acquireLock_compare_and_set (locks : LockStore) (objectId u1 u2 : String)
    (hne : u1 ≠ u2) (hu1 : u1 ≠ "") :
    ((acquireLock locks objectId u1 none).granted = true ↔
      (lockFalsy (locks objectId) = true ∨ locks objectId = some u1)) ∧
    ((acquireLock locks objectId u1 none).granted = true →
      (acquireLock locks objectId u1 none).locks objectId = some u1) ∧
    ((acquireLock locks objectId u1 none).granted = false →
      (acquireLock locks objectId u1 none).locks = locks) ∧
    ((acquireLock locks objectId u1 none).granted = true →
      (acquireLock (acquireLock locks objectId u1 none).locks objectId u2 none).granted
        = false ∧
      (acquireLock (acquireLock locks objectId u1 none).locks objectId u2 none).locks
        = (acquireLock locks objectId u1 none).locks) := by
  by_cases hc : (lockFalsy (locks objectId) || locks objectId == some u1) = true
  · have hres : acquireLock locks objectId u1 none =
        { granted := true,
          locks := fun k => if k = objectId then some u1 else locks k,
          raisedError := none, transactionAttempts := 1 } := by
      simp [acquireLock, lockTransactionUpdate, hc]
    rw [hres]
    refine ⟨?_, ?_, ?_, ?_⟩
    · constructor
      · intro _
        rcases Bool.or_eq_true_iff.mp hc with h | h
        · exact Or.inl h
        · exact Or.inr (by simpa using h)
      · intro _; rfl
    · intro _; simp
    · intro hfalse; simp at hfalse
    · intro _
      have hlock1 :
          (fun k => if k = objectId then some u1 else locks k) objectId = some u1 := by
        simp
      have habort : lockTransactionUpdate u2 (some u1) = .abort := by
        have hne2 : u2 ≠ u1 := fun hh => hne hh.symm
        simp [lockTransactionUpdate, lockFalsy, hu1, hne, hne2]
      constructor
      · simp [acquireLock, hlock1, habort]
      · simp [acquireLock, hlock1, habort]
  · have hres : acquireLock locks objectId u1 none =
        { granted := false, locks := locks, raisedError := none,
          transactionAttempts := 1 } := by
      simp [acquireLock, lockTransactionUpdate, hc]
    rw [hres]
    refine ⟨?_, ?_, ?_, ?_⟩
    · constructor
      · intro h; simp at h
      · intro h
        exfalso
        apply hc
        rcases h with h | h
        · simp [h]
        · simp [h]
    · intro h; simp at h
    · intro _; rfl
    · intro h; simp at h

/-- Witness for C1: on an empty lock store, user_1 is granted the lock and
a following acquisition by user_2 is refused. -/
theorem acquireLock_compare_and_set_witness :
    (acquireLock (fun _ => none) "rect_1" "user_1" none).granted = true ∧
    (acquireLock (acquireLock (fun _ => none) "rect_1" "user_1" none).locks
        "rect_1" "user_2" none).granted = false := by
  have h := acquireLock_compare_and_set (fun _ => none) "rect_1" "user_1" "user_2"
    (by decide) (by decide)
  have h1 : (acquireLock (fun _ => none) "rect_1" "user_1" none).granted = true :=
    h.1.mpr (Or.inl rfl)
  exact ⟨h1, (h.2.2.2 h1).1⟩

/-- C7 counterexample: when the underlying transaction fails with a channel
error, acquireLock raises nothing to its caller (the error is caught and
logged) and simply reports the lock as not granted, contradicting the claim
that the error is returned or raised to the immediate caller. -/
theorem acquireLock_channel_error_cex :
    (acquireLock (fun _ => none) "rect_1" "user_1"
        (some "permission denied")).raisedError = none ∧
    (acquireLock (fun _ => none) "rect_1" "user_1"
        (some "permission denied")).raisedError ≠ some "permission denied" ∧
    (acquireLock (fun _ => none) "rect_1" "user_1"
        (some "permission denied")).granted = false := by
  refine ⟨rfl, ?_, rfl⟩
  simp [acquireLock]

/-- C7 amended: a channel error inside the acquireLock transaction is caught:
the caller receives false (not granted), no error is raised, the lock store
is unchanged, and exactly one transaction attempt is made (no retry). -/
theorem acquireLock_channel_error_swallowed (locks : LockStore)
    (objectId userId e : String) :
    (acquireLock locks objectId userId (some e)).granted = false ∧
    (acquireLock locks objectId userId (some e)).raisedError = none ∧
    (acquireLock locks objectId userId (some e)).locks = locks ∧
    (acquireLock locks objectId userId (some e)).transactionAttempts = 1 :=
  ⟨rfl, rfl, rfl, rfl⟩

/-! ## Throttle (src/collab-canvas/src/utils/throttle.ts)

The closure state of a throttled function is lastCall together with at most
one pending trailing timeout (its fire time and captured arguments); the
pending slot is an Option, so by construction never more than one trailing
call is scheduled.  A run processes timestamped calls in order; a scheduled
timeout that is due fires before the next call is handled. -/

/-- Closure state of the throttled function. -/
structure ThrottleState (α : Type) where
  lastCall : Nat
  pending : Option (Nat × α)

/-- A due timeout fires: the callback runs func with the captured arguments
and sets lastCall to the fire time, clearing the pending slot. -/
def fireIfDue {α : Type} (now : Nat) (s : ThrottleState α) :
    ThrottleState α × List (Nat × α) :=
  match s.pending with
  | some p =>
    if p.1 ≤ now then ({ lastCall := p.1, pending := none }, [p])
    else (s, [])
  | none => (s, [])

/-- One call of the throttled function at time now (the body of throttled in
throttle.ts): any pending timeout is cleared; if delay has elapsed since
lastCall the function runs immediately, otherwise a trailing call is
scheduled for lastCall + delay (= now + remainingTime) with these
arguments. -/
def throttledCall {α : Type} (delay : Nat) (s : ThrottleState α)
    (now : Nat) (args : α) : ThrottleState α × List (Nat × α) :=
  let fired := fireIfDue now s
  if delay ≤ now - fired.1.lastCall then
    ({ lastCall := now, pending := none }, fired.2 ++ [(now, args)])
  else
    ({ lastCall := fired.1.lastCall,
       pending := some (fired.1.lastCall + delay, args) }, fired.2)

/-- Processes a list of timestamped calls, collecting the underlying
invocations (time and arguments) in order. -/
def runThrottleAux {α : Type} (delay : Nat) (s : ThrottleState α) :
    List (Nat × α) → ThrottleState α × List (Nat × α)
  | [] => (s, [])
  | c :: cs =>
    let r1 := throttledCall delay s c.1 c.2
    let r2 := runThrottleAux delay r1.1 cs
    (r2.1, r1.2 ++ r2.2)

/-- After the last call, a still-pending trailing timeout eventually fires. -/
def flushPending {α : Type} (s : ThrottleState α) : List (Nat × α) :=
  match s.pending with
  | some p => [p]
  | none => []

/-- The complete run of a freshly created throttled function (lastCall = 0,
nothing pending) on a list of timestamped calls. -/
def runThrottle {α : Type} (delay : Nat) (calls : List (Nat × α)) :
    List (Nat × α) :=
  let r := runThrottleAux delay { lastCall := 0, pending := none } calls
  r.2 ++ flushPending r.1

/-- The first call of a fresh throttled function executes immediately when
the wall-clock time is at least delay (lastCall starts at 0). -/
theorem throttledCall_first {α : Type} (delay t : Nat) (a : α)
    (h : delay ≤ t) :
    throttledCall delay { lastCall := 0, pending := none } t a
      = ({ lastCall := t, pending := none }, [(t, a)]) := by
  simp [throttledCall, fireIfDue, h]

/-- A call within the delay window replaces the pending trailing call (if
any) by one carrying its own arguments, scheduled at lastCall + delay, and
invokes nothing. -/
theorem throttledCall_step {α : Type} (delay t1 t : Nat) (a : α)
    (p : Option (Nat × α))
    (hp : p = none ∨ ∃ b, p = some (t1 + delay, b))
    (h1 : t1 ≤ t) (h2 : t < t1 + delay) :
    throttledCall delay { lastCall := t1, pending := p } t a
      = ({ lastCall := t1, pending := some (t1 + delay, a) }, []) := by
  have hlt : ¬ delay ≤ t - t1 := by omega
  rcases hp with rfl | ⟨b, rfl⟩
  · simp [throttledCall, fireIfDue, hlt]
  · have hnd : ¬ (t1 + delay ≤ t) := by omega
    simp [throttledCall, fireIfDue, hnd, hlt]

/-- Processing further calls inside the window only rewrites the pending
arguments to those of the latest call; nothing is invoked. -/
theorem runThrottleAux_within {α : Type} (delay t1 : Nat)
    (rest : List (Nat × α)) (a0 : α)
    (hspan : ∀ c ∈ rest, t1 ≤ c.1 ∧ c.1 < t1 + delay) :
    runThrottleAux delay { lastCall := t1, pending := some (t1 + delay, a0) } rest
      = ({ lastCall := t1,
           pending := some (t1 + delay, rest.foldl (fun _ c => c.2) a0) }, []) := by
  induction rest generalizing a0 with
  | nil => simp [runThrottleAux]
  | cons c cs ih =>
    have hc := hspan c (List.mem_cons_self c cs)
    have hstep := throttledCall_step delay t1 c.1 c.2 (some (t1 + delay, a0))
      (Or.inr ⟨a0, rfl⟩) hc.1 hc.2
    have hrest := ih c.2 (fun d hd => hspan d (List.mem_cons_of_mem c hd))
    simp [runThrottleAux, hstep, hrest]

/-- C2: for calls at nondecreasing wall-clock times all within a span
shorter than delay (the first at time at least delay, so that it fires
immediately), the underlying function is invoked at most twice: once
immediately at the first call, and, if there was more than one call, once
more at firstCall + delay carrying the arguments of the last call.  The
pending slot being an Option, at most one trailing call is ever scheduled,
and later calls replace its arguments. -/
theorem runThrottle_span_bound {α : Type} (delay t1 : Nat) (a1 : α)
    (rest : List (Nat × α))
    (hfirst : delay ≤ t1)
    (hspan : ∀ c ∈ rest, t1 ≤ c.1 ∧ c.1 < t1 + delay) :
    runThrottle delay ((t1, a1) :: rest)
      = (t1, a1) ::
        (if rest.isEmpty then []
         else [(t1 + delay, rest.foldl (fun _ c => c.2) a1)]) ∧
    (runThrottle delay ((t1, a1) :: rest)).length ≤ 2 := by
  have hmain : runThrottle delay ((t1, a1) :: rest)
      = (t1, a1) ::
        (if rest.isEmpty then []
         else [(t1 + delay, rest.foldl (fun _ c => c.2) a1)]) := by
    cases rest with
    | nil =>
      simp [runThrottle, runThrottleAux, throttledCall_first delay t1 a1 hfirst,
        flushPending]
    | cons c cs =>
      have hc := hspan c (List.mem_cons_self c cs)
      have h1 := throttledCall_first delay t1 a1 hfirst
      have h2 := throttledCall_step delay t1 c.1 c.2 none (Or.inl rfl) hc.1 hc.2
      have h3 := runThrottleAux_within delay t1 cs c.2
        (fun d hd => hspan d (List.mem_cons_of_mem c hd))
      simp [runThrottle, runThrottleAux, h1, h2, h3, flushPending]
  refine ⟨hmain, ?_⟩
  rw [hmain]
  cases rest <;> simp

/-- Witness for C2: three calls at 1000, 1010, 1050 throttled at 100 produce
exactly the immediate invocation at 1000 and one trailing invocation at 1100
with the last arguments. -/
theorem runThrottle_span_bound_witness :
    runThrottle 100 [(1000, "a"), (1010, "b"), (1050, "c")]
      = [(1000, "a"), (1100, "c")] ∧
    (runThrottle 100 [(1000, "a"), (1010, "b"), (1050, "c")]).length ≤ 2 := by
  have h := runThrottle_span_bound 100 1000 "a" [(1010, "b"), (1050, "c")]
    (by omega) (by decide)
  exact ⟨h.1.trans (by decide), h.2⟩

/-! ## Presence service (setUserOnline in the presence service source) -/

/-- The record written under presence/{userId}. -/
structure PresenceRecord where
  userId : String
  displayName : String
  color : String
deriving DecidableEq

/-- A channel operation performed by setUserOnline, in execution order. -/
inductive PresenceEffect where
  | registerDisconnectRemoval : String → PresenceEffect
  | writePresence : String → PresenceRecord → PresenceEffect
deriving DecidableEq

/-- Outcome of one setUserOnline call: the channel operations that
succeeded (in order), the error rethrown to the caller (none on success),
and whether a disconnect hook is left registered. -/
structure SetUserOnlineResult where
  effects : List PresenceEffect
  thrown : Option String
  hookRegistered : Bool
deriving DecidableEq

/-- setUserOnline from the presence service: it first awaits
onDisconnect(presenceRef).remove() and then awaits the presence write; any
failure is logged and rethrown.  disconnectErr and writeErr inject failures
of the two awaited channel operations. -/
def setUserOnline (userId displayName color : String)
    (disconnectErr writeErr : Option String) : SetUserOnlineResult :=
  match disconnectErr with
  | some e => { effects := [], thrown := some e, hookRegistered := false }
  | none =>
    match writeErr with
    | some e =>
      { effects := [.registerDisconnectRemoval userId], thrown := some e,
        hookRegistered := true }
    | none =>
      { effects := [.registerDisconnectRemoval userId,
          .writePresence userId
            { userId := userId, displayName := displayName, color := color }],
        thrown := none, hookRegistered := true }

/-- C6 counterexample: on a successful join the code registers the
disconnect removal BEFORE writing the presence record, not after; and when
the presence write fails, the error is rethrown but the disconnect hook
registered beforehand remains in place.  Both halves of the claim fail at
these concrete inputs. -/
theorem setUserOnline_order_cex :
    (setUserOnline "user_1" "Alice" "#FF6B6B" none none).effects
      = [.registerDisconnectRemoval "user_1",
         .writePresence "user_1"
           { userId := "user_1", displayName := "Alice", color := "#FF6B6B" }] ∧
    (setUserOnline "user_1" "Alice" "#FF6B6B" none none).effects
      ≠ [.writePresence "user_1"
           { userId := "user_1", displayName := "Alice", color := "#FF6B6B" },
         .registerDisconnectRemoval "user_1"] ∧
    (setUserOnline "user_1" "Alice" "#FF6B6B" none
        (some "network error")).thrown = some "network error" ∧
    (setUserOnline "user_1" "Alice" "#FF6B6B" none
        (some "network error")).hookRegistered = true := by
  refine ⟨rfl, by decide, rfl, rfl⟩

/-- C6 amended: setUserOnline registers the disconnect-triggered removal
first and then writes the PresenceRecord, in that order; if the write fails
the error is surfaced to the caller and the disconnect hook registered
beforehand remains; if the registration itself fails the error is surfaced
and nothing is written and no hook is registered. -/
theorem setUserOnline_register_then_write (userId displayName color e : String) :
    ((setUserOnline userId displayName color none none).effects
      = [.registerDisconnectRemoval userId,
         .writePresence userId
           { userId := userId, displayName := displayName, color := color }] ∧
     (setUserOnline userId displayName color none none).thrown = none ∧
     (setUserOnline userId displayName color none none).hookRegistered = true) ∧
    ((setUserOnline userId displayName color none (some e)).thrown = some e ∧
     (setUserOnline userId displayName color none (some e)).hookRegistered = true ∧
     (setUserOnline userId displayName color none (some e)).effects
       = [.registerDisconnectRemoval userId]) ∧
    ((setUserOnline userId displayName color (some e) none).thrown = some e ∧
     (setUserOnline userId displayName color (some e) none).effects = [] ∧
     (setUserOnline userId displayName color (some e) none).hookRegistered = false) :=
  ⟨⟨rfl, rfl, rfl⟩, ⟨rfl, rfl, rfl⟩, ⟨rfl, rfl, rfl⟩⟩

/-! ## Viewport persistence (useCanvas hook) -/

/-- A JavaScript value as far as the typeof-based validation cares: a
number (possibly NaN or infinite), a string, a boolean, null, or
undefined (a missing property). -/
inductive JSVal where
  | num : JSNum → JSVal
  | str : String → JSVal
  | bool : Bool → JSVal
  | null : JSVal
  | undef : JSVal
deriving DecidableEq

/-- typeof v === number. -/
def isNumberType : JSVal → Bool
  | .num _ => true
  | _ => false

/-- The x, y, scale properties of the value parsed from localStorage. -/
structure ParsedViewport where
  x : JSVal
  y : JSVal
  scale : JSVal
deriving DecidableEq

/-- DEFAULT_VIEWPORT from useCanvas: x 0, y 0, scale 1. -/
def DEFAULT_VIEWPORT : ParsedViewport :=
  { x := .num (.fin 0), y := .num (.fin 0), scale := .num (.fin 1) }

/-- The initial-state loader in useCanvas: none models an absent key or a
JSON.parse failure; otherwise the parsed object is returned when x, y and
scale all have typeof number, and the default viewport is returned
otherwise.  Note the check is typeof only: it does not test finiteness. -/
def loadViewport (saved : Option ParsedViewport) : ParsedViewport :=
  match saved with
  | some parsed =>
    if isNumberType parsed.x && isNumberType parsed.y && isNumberType parsed.scale
    then parsed
    else DEFAULT_VIEWPORT
  | none => DEFAULT_VIEWPORT

/-- A saved viewport whose scale is Infinity (reachable: the JSON numeric
literal 1e999 parses to Infinity, whose typeof is number). -/
def infScaleViewport : ParsedViewport :=
  { x := .num (.fin 0), y := .num (.fin 0), scale := .num .posInf }

/-- C9 counterexample: a saved state with an infinite scale passes the
typeof validation and is returned unchanged instead of falling back to the
default viewport, contradicting the claimed finiteness validation. -/
theorem loadViewport_infinite_scale_cex :
    loadViewport (some infScaleViewport) = infScaleViewport ∧
    infScaleViewport ≠ DEFAULT_VIEWPORT ∧
    infScaleViewport.scale = .num .posInf := by
  refine ⟨rfl, by decide, rfl⟩

/-- C9 amended: the loader validates only that x, y and scale have typeof
number.  An absent or non-number-typed saved state falls back to the
default viewport x 0, y 0, scale 1; any all-number saved state, including
one with NaN or infinite fields, is returned unchanged. -/
theorem loadViewport_validation (p : ParsedViewport) (nx ny ns : JSNum)
    (h : isNumberType p.x = false ∨ isNumberType p.y = false ∨
         isNumberType p.scale = false) :
    loadViewport none = DEFAULT_VIEWPORT ∧
    loadViewport (some { x := .num nx, y := .num ny, scale := .num ns })
      = { x := .num nx, y := .num ny, scale := .num ns } ∧
    loadViewport (some p) = DEFAULT_VIEWPORT := by
  refine ⟨rfl, rfl, ?_⟩
  rcases h with h | h | h <;> simp [loadViewport, h]

/-- Witness for C9: a NaN/Infinity state passes through unchanged, while a
string-valued x falls back to the default. -/
theorem loadViewport_validation_witness :
    loadViewport none = DEFAULT_VIEWPORT ∧
    loadViewport (some { x := .num .nan, y := .num (.fin 2), scale := .num .posInf })
      = { x := .num .nan, y := .num (.fin 2), scale := .num .posInf } ∧
    loadViewport (some { x := .str "oops", y := .num (.fin 0), scale := .num (.fin 1) })
      = DEFAULT_VIEWPORT :=
  loadViewport_validation
    { x := .str "oops", y := .num (.fin 0), scale := .num (.fin 1) }
    .nan (.fin 2) .posInf (Or.inl rfl)

end CollabCanvas
